import Mathlib

/-!
# Network-Clients: `include/socket.hpp`

A verification development over the public header of the blocking socket layer.
The header declares four result enumerations, the `dns_host` record, the abstract
class `socket_base` and its two transports `http_socket` and `https_socket`.

The file has three layers.

* The enumerations and `dns_host` are embedded directly (the constructor of
  `dns_host` is defined inline in the header).
* The class declarations are embedded as declaration tables (`class_decl`), with the
  member-function resolution rule of the language (`resolve`) on top of them.
* The member-function bodies are not part of the header.  Where a property needs
  them they are modelled from the specification; every such definition says so.
-/

set_option linter.dupNamespace false

namespace network

/-! ## Result enumerations (socket.hpp lines 17-44) -/

/-- Result of `create()`. -/
inductive create_response where
  | CREATE_SSL_CTX_FAIL
  | CREATE_FAIL
  | CREATE_SUCCESS
  deriving DecidableEq, Repr, Fintype

/-- Result of `connect()`. -/
inductive connect_response where
  | CONNECT_BAD_IP
  | CONNECT_FAIL
  | CONNECT_DNS_LOOKUP_FAIL
  | CONNECT_SSL_CREATE_FAIL
  | CONNECT_SSL_SET_FD_FAIL
  | CONNECT_SSL_HANDSHAKE_FAIL
  | CONNECT_SSL_CTX_NOT_INITIALIZED
  | CONNECT_SUCCESS
  deriving DecidableEq, Repr, Fintype

/-- Result of `receive_data` / `receive_string`. -/
inductive receive_response where
  | RECEIVE_NOT_CONNECTED
  | RECEIVE_CLOSED
  | RECEIVE_TIMEOUT
  | RECEIVE_SELECT_ERR
  | RECEIVE_ERROR
  | RECEIVE_SUCCESS
  deriving DecidableEq, Repr, Fintype

/-- Result of `send_data` / `send_string`. -/
inductive send_response where
  | SEND_NOT_CONNECTED
  | SEND_ERR
  | SEND_SUCCESS
  deriving DecidableEq, Repr, Fintype

/-- Numeric value of an enumerator of `create_response` (unscoped enum, counted from 0). -/
def create_response.value : create_response → Nat
  | .CREATE_SSL_CTX_FAIL => 0
  | .CREATE_FAIL => 1
  | .CREATE_SUCCESS => 2

/-- Numeric value of an enumerator of `connect_response`. -/
def connect_response.value : connect_response → Nat
  | .CONNECT_BAD_IP => 0
  | .CONNECT_FAIL => 1
  | .CONNECT_DNS_LOOKUP_FAIL => 2
  | .CONNECT_SSL_CREATE_FAIL => 3
  | .CONNECT_SSL_SET_FD_FAIL => 4
  | .CONNECT_SSL_HANDSHAKE_FAIL => 5
  | .CONNECT_SSL_CTX_NOT_INITIALIZED => 6
  | .CONNECT_SUCCESS => 7

/-- Numeric value of an enumerator of `receive_response`. -/
def receive_response.value : receive_response → Nat
  | .RECEIVE_NOT_CONNECTED => 0
  | .RECEIVE_CLOSED => 1
  | .RECEIVE_TIMEOUT => 2
  | .RECEIVE_SELECT_ERR => 3
  | .RECEIVE_ERROR => 4
  | .RECEIVE_SUCCESS => 5

/-- Numeric value of an enumerator of `send_response`. -/
def send_response.value : send_response → Nat
  | .SEND_NOT_CONNECTED => 0
  | .SEND_ERR => 1
  | .SEND_SUCCESS => 2

/-! ## `dns_host` (socket.hpp lines 46-53) -/

/-- The record `struct dns_host`. -/
structure dns_host where
  host : String
  success : Bool
  err : Int
  deriving DecidableEq, Repr

/-- The constructor `dns_host() : host{}, success{false}, err{-1} {}`. -/
def dns_host.dns_host : network.dns_host :=
  { host := "", success := false, err := -1 }

/-! ## Class declarations (socket.hpp lines 55-113) -/

/-- The three classes of the header. -/
inductive class_name where
  | socket_base
  | http_socket
  | https_socket
  deriving DecidableEq, Repr, Fintype

/-- Types that occur in member declarations of the header. -/
inductive ctype where
  | void_t
  | bool_t
  | int_t
  | ssize_t
  | string_t
  | dns_host_t
  | mutex_t
  | SSL_CTX_ptr
  | SSL_ptr
  | create_response_t
  | connect_response_t
  | receive_response_t
  | send_response_t
  deriving DecidableEq, Repr

/-- Names of the data members declared in the header. -/
inductive field_name where
  | host
  | hostname
  | port
  | socket_fd
  | ssl_ctx_mutex
  | ssl_ctx
  | ssl
  deriving DecidableEq, Repr

/-- Names of the member functions declared in the header (constructors and
destructors are left out: they are not called by name). -/
inductive member_name where
  | get_dns_host
  | get_hostname
  | send_data
  | send_string
  | receive_data
  | receive_string
  | connect
  | close
  | create
  | is_connected
  | dns_lookup
  | receive_data_internal
  | send_data_internal
  | get_error
  | free_ssl_ctx
  deriving DecidableEq, Repr, Fintype

/-- Access of a member. -/
inductive access where
  | pub
  | prot
  | priv
  deriving DecidableEq, Repr

/-- A data member declaration. -/
structure field_decl where
  name : field_name
  type : ctype
  is_static : Bool
  acc : access
  deriving DecidableEq, Repr

/-- A member function declaration: its name, return type, whether it carries the
keywords `virtual`, `override`, the pure specifier `= 0`, and the default values of
its trailing parameters (in declaration order). -/
structure method_decl where
  name : member_name
  ret : ctype
  kw_virtual : Bool
  kw_override : Bool
  pure_spec : Bool
  defaults : List Int
  acc : access
  deriving DecidableEq, Repr

/-- A class declaration. -/
structure class_decl where
  name : class_name
  base : Option class_name
  fields : List field_decl
  methods : List method_decl
  deriving DecidableEq, Repr

/-- The declaration `class socket_base` (lines 55-81). -/
def socket_base_decl : class_decl :=
  { name := .socket_base
    base := none
    fields :=
      [ ⟨.host, .dns_host_t, false, .prot⟩,
        ⟨.hostname, .string_t, false, .prot⟩,
        ⟨.port, .int_t, false, .prot⟩,
        ⟨.socket_fd, .int_t, false, .prot⟩ ]
    methods :=
      [ ⟨.get_dns_host, .dns_host_t, false, false, false, [], .pub⟩,
        ⟨.get_hostname, .string_t, false, false, false, [], .pub⟩,
        ⟨.send_data, .send_response_t, false, false, false, [], .pub⟩,
        ⟨.send_string, .send_response_t, false, false, false, [], .pub⟩,
        ⟨.receive_data, .receive_response_t, false, false, false, [3000, 4096], .pub⟩,
        ⟨.receive_string, .receive_response_t, false, false, false, [3000, 4096], .pub⟩,
        ⟨.connect, .connect_response_t, false, false, false, [], .pub⟩,
        ⟨.close, .bool_t, false, false, false, [], .pub⟩,
        ⟨.create, .create_response_t, true, false, true, [], .pub⟩,
        ⟨.is_connected, .bool_t, false, false, false, [], .prot⟩,
        ⟨.dns_lookup, .bool_t, false, false, false, [], .prot⟩,
        ⟨.receive_data_internal, .ssize_t, true, false, true, [], .prot⟩,
        ⟨.send_data_internal, .ssize_t, true, false, true, [], .prot⟩,
        ⟨.get_error, .int_t, true, false, true, [], .prot⟩ ] }

/-- The declaration `class http_socket : public socket_base` (lines 83-93). -/
def http_socket_decl : class_decl :=
  { name := .http_socket
    base := some .socket_base
    fields := []
    methods :=
      [ ⟨.create, .create_response_t, false, true, false, [], .pub⟩,
        ⟨.get_error, .int_t, false, true, false, [], .priv⟩,
        ⟨.receive_data_internal, .ssize_t, false, true, false, [], .priv⟩,
        ⟨.send_data_internal, .ssize_t, false, true, false, [], .priv⟩ ] }

/-- The declaration `class https_socket : public socket_base` (lines 95-113). -/
def https_socket_decl : class_decl :=
  { name := .https_socket
    base := some .socket_base
    fields :=
      [ ⟨.ssl_ctx_mutex, .mutex_t, true, .priv⟩,
        ⟨.ssl_ctx, .SSL_CTX_ptr, true, .priv⟩,
        ⟨.ssl, .SSL_ptr, false, .priv⟩ ]
    methods :=
      [ ⟨.connect, .connect_response_t, false, false, false, [], .pub⟩,
        ⟨.close, .bool_t, false, false, false, [], .pub⟩,
        ⟨.create, .create_response_t, false, true, false, [], .pub⟩,
        ⟨.get_error, .int_t, false, true, false, [], .priv⟩,
        ⟨.receive_data_internal, .ssize_t, false, true, false, [], .priv⟩,
        ⟨.send_data_internal, .ssize_t, false, true, false, [], .priv⟩,
        ⟨.free_ssl_ctx, .void_t, false, false, false, [], .priv⟩ ] }

/-- The declaration of a class, by name. -/
def decl_of : class_name → class_decl
  | .socket_base => socket_base_decl
  | .http_socket => http_socket_decl
  | .https_socket => https_socket_decl

/-- The declaration of member function `m` written in class `c` itself, if any. -/
def own_method (c : class_name) (m : member_name) : Option method_decl :=
  (decl_of c).methods.find? (fun d => d.name = m)

/-- The member functions a class declares itself. -/
def declared (c : class_name) : List member_name :=
  (decl_of c).methods.map (fun d => d.name)

/-- Unqualified name lookup: the nearest class, from `c` up the base chain, that
declares `m`.  The fuel bounds the length of the base chain. -/
def lookup_from : Nat → class_name → member_name → Option class_name
  | 0, _, _ => none
  | fuel + 1, c, m =>
    match own_method c m with
    | some _ => some c
    | none =>
      match (decl_of c).base with
      | some b => lookup_from fuel b m
      | none => none

/-- Whether the member function `m` as declared in class `c` is virtual: it carries
`virtual` or `override`, or a base class declares a virtual member of that name. -/
def is_virtual_in : Nat → class_name → member_name → Bool
  | 0, _, _ => false
  | fuel + 1, c, m =>
    (match own_method c m with
     | some d => d.kw_virtual || d.kw_override
     | none => false)
    || (match (decl_of c).base with
        | some b => is_virtual_in fuel b m
        | none => false)

/-- Depth bound of the class hierarchy of the header. -/
def hierarchy_depth : Nat := 3

/-- The class whose member function runs when `m` is called on an object of dynamic
type `dyn` through an expression of static type `stat`: name lookup starts at
`stat`; a virtual member is then dispatched to the final overrider seen from `dyn`,
a non-virtual one is bound statically. -/
def resolve (stat dyn : class_name) (m : member_name) : Option class_name :=
  match lookup_from hierarchy_depth stat m with
  | none => none
  | some c =>
    if is_virtual_in hierarchy_depth c m then lookup_from hierarchy_depth dyn m
    else some c

/-- The operations of `socket_base` that class `c` declares again (overriding or hiding
the base declaration), in the order of `socket_base`. -/
def redeclared (c : class_name) : List member_name :=
  (declared .socket_base).filter (fun m => decide (m ∈ declared c))

/-- The trailing arguments a call passes once the default arguments of the declaration
`d` have been filled in: `given` are the trailing arguments written at the call site
(for the parameters that have a default), the missing ones come from `d.defaults`. -/
def complete_args (d : method_decl) (given : List Int) : List Int :=
  given ++ d.defaults.drop given.length

/-- The enumerations that the header declares, with their number of enumerators. -/
def header_enums : List (ctype × Nat) :=
  [ (.create_response_t, Fintype.card create_response),
    (.connect_response_t, Fintype.card connect_response),
    (.receive_response_t, Fintype.card receive_response),
    (.send_response_t, Fintype.card send_response) ]

/-- Whether a type of the header is an enumeration. -/
def ctype.is_enum (t : ctype) : Bool :=
  header_enums.any (fun e => decide (e.1 = t))

/-- All data members of a class: those of its base classes first. -/
def all_fields : Nat → class_name → List field_decl
  | 0, _ => []
  | fuel + 1, c =>
    (match (decl_of c).base with
     | some b => all_fields fuel b
     | none => [])
    ++ (decl_of c).fields

/-- Whether the state of class `c` stores a lifecycle phase: a data member of an
enumeration type with exactly four enumerators. -/
def stores_phase (c : class_name) : Bool :=
  (all_fields hierarchy_depth c).any
    (fun f => header_enums.any (fun e => decide (e.1 = f.type) && decide (e.2 = 4)))

/-! ## Connection state

The member-function bodies of `socket_base`, `http_socket` and `https_socket` are not
in the header.  The definitions of this part follow sections 3 and 4 of the
specification; the operating system and the TLS library are external collaborators,
represented by the calls made to them (`net_call`) and by their answers (`net`). -/

/-- Modelled from the spec: the lifecycle phase of section 3 ("Lifecycle phase ∈
{Uninitialized, Created, Connected, Closed}").  The classes of the header declare no
such member; the phase is kept next to the declared members as a ghost component. -/
inductive lifecycle_phase where
  | Uninitialized
  | Created
  | Connected
  | Closed
  deriving DecidableEq, Repr, Fintype

/-- The data members of `class socket_base` (lines 57-60). -/
structure socket_base where
  host : dns_host
  hostname : String
  port : Int
  socket_fd : Int
  deriving DecidableEq, Repr

/-- The two concrete transports: the dynamic type of a connection object. -/
inductive transport where
  | plain
  | tls
  deriving DecidableEq, Repr, Fintype

/-- The class that implements a transport. -/
def transport.cls : transport → class_name
  | .plain => .http_socket
  | .tls => .https_socket

/-- Whether `m`, called on an object of class `c` through its own type, runs a member
that `c` declares itself rather than the one of `socket_base`. -/
def runs_own (c : class_name) (m : member_name) : Bool :=
  decide (resolve c c m = some c)

/-- Modelled from the spec: a connection instance (ConnectionState of section 3): the
members of `socket_base`, the per-connection TLS session `https_socket::ssl`
(`none` is the null pointer; a plain connection never has one), the dynamic type and
the ghost lifecycle phase. -/
structure connection where
  variant : transport
  base : socket_base
  ssl : Option Nat
  phase : lifecycle_phase
  deriving DecidableEq, Repr

/-- Modelled from the spec: the calls the core makes into its external collaborators
(section 1: "resolve a hostname", "open a stream socket", "perform a TLS handshake
over a file descriptor", the readiness poll, raw read and write, error lookup, and the
creation lock of the Shared TLS Context). -/
inductive net_call where
  | resolve (hostname : String)
  | parse_address (address : String)
  | os_socket
  | os_connect (fd : Int) (address : String) (port : Int)
  | os_close (fd : Int)
  | poll (fd : Int) (timeout_ms : Int)
  | os_recv (fd : Int) (amt : Nat)
  | os_send (fd : Int) (data : List UInt8)
  | os_errno
  | lock_ssl_ctx
  | unlock_ssl_ctx
  | ssl_ctx_new
  | ssl_new (ctx : Nat)
  | ssl_set_fd (session : Nat) (fd : Int)
  | ssl_handshake (session : Nat)
  | ssl_read (session : Option Nat) (amt : Nat)
  | ssl_write (session : Option Nat) (data : List UInt8)
  | ssl_get_error (session : Option Nat) (res : Int)
  | ssl_shutdown (session : Nat)
  | ssl_free (session : Nat)
  deriving DecidableEq, Repr

/-- Outcome of the readiness poll. -/
inductive poll_result where
  | readable
  | timed_out
  | failed
  deriving DecidableEq, Repr

/-- Modelled from the spec: the process-wide state: the record of all calls made to the
collaborators so far (oldest first) and the Shared TLS Context `https_socket::ssl_ctx`
(`none` while it is not initialised). -/
structure world where
  log : List net_call
  ssl_ctx : Option Nat
  deriving DecidableEq, Repr

/-- Modelled from the spec: the answers of the collaborators.  Every answer may depend on
the whole history of calls, the call being answered last. -/
structure net where
  resolve : List net_call → dns_host
  address_ok : List net_call → Bool
  os_socket : List net_call → Option Nat
  os_connect : List net_call → Bool
  poll : List net_call → poll_result
  raw_read : List net_call → Option (List UInt8)
  raw_write : List net_call → Option Nat
  error_code : List net_call → Int
  ssl_ctx_new : List net_call → Option Nat
  ssl_new : List net_call → Option Nat
  ssl_set_fd : List net_call → Bool
  ssl_handshake : List net_call → Bool

/-- Record one call to a collaborator. -/
def world.call (w : world) (c : net_call) : world :=
  { w with log := w.log ++ [c] }

/-- Modelled from the spec: a descriptor is valid when it names an open socket; the
absent descriptor is written `-1`. -/
def valid_fd (fd : Int) : Bool := decide (0 ≤ fd)

/-! ## Operations (bodies modelled from sections 4.2-4.4 of the specification) -/

/-- Value returned by `create()`, with the connection and the world after the call. -/
structure create_result where
  response : create_response
  self : connection
  w : world
  deriving DecidableEq, Repr

/-- Value returned by `connect()`, with the connection and the world after the call. -/
structure connect_result where
  response : connect_response
  self : connection
  w : world
  deriving DecidableEq, Repr

/-- Value returned by `send_data` / `send_string`, with the out-parameter `err`. -/
structure send_result where
  response : send_response
  err : Int
  self : connection
  w : world
  deriving DecidableEq, Repr

/-- Value returned by `receive_data` / `receive_string`, with the out-parameters `buff`
and `err`. -/
structure receive_result where
  response : receive_response
  buff : List UInt8
  err : Int
  self : connection
  w : world
  deriving DecidableEq, Repr

/-- Value returned by `close()`, with the connection and the world after the call. -/
structure close_result where
  ok : Bool
  self : connection
  w : world
  deriving DecidableEq, Repr

/-- Modelled from the spec: `socket_base::socket_base(hostname, port)`: a fresh
instance is in phase Uninitialized, holds no descriptor and no resolved host. -/
def socket_base.socket_base (v : transport) (hostname : String) (port : Int) : connection :=
  { variant := v
    base := { host := dns_host.dns_host, hostname := hostname, port := port, socket_fd := -1 }
    ssl := none
    phase := .Uninitialized }

/-- Modelled from the spec: `socket_base::is_connected()`: "send/receive are only valid
in phase Connected". -/
def socket_base.is_connected (self : connection) : Bool :=
  decide (self.phase = .Connected)

/-- Modelled from the spec: the raw read primitive `receive_data_internal(data, amt)`
(virtual): the plain transport passes through to the OS socket read, the TLS
transport reads from the TLS session.  Returns the `ssize_t` result (negative on
error) and the bytes read, at most `amt`. -/
def socket_base.receive_data_internal (n : net) (w : world) (self : connection) (amt : Nat) :
    Int × List UInt8 × world :=
  let w1 :=
    match self.variant with
    | .plain => w.call (.os_recv self.base.socket_fd amt)
    | .tls => w.call (.ssl_read self.ssl amt)
  match n.raw_read w1.log with
  | none => (-1, [], w1)
  | some bs => (((bs.take amt).length : Int), bs.take amt, w1)

/-- Modelled from the spec: the raw write primitive `send_data_internal(data, amt)`
(virtual): pass-through to the OS socket write, or the TLS session write.  Returns
the `ssize_t` result: the number of bytes written (possibly short), negative on
error. -/
def socket_base.send_data_internal (n : net) (w : world) (self : connection)
    (data : List UInt8) : Int × world :=
  let w1 :=
    match self.variant with
    | .plain => w.call (.os_send self.base.socket_fd data)
    | .tls => w.call (.ssl_write self.ssl data)
  match n.raw_write w1.log with
  | none => (-1, w1)
  | some k => (((min k data.length : Nat) : Int), w1)

/-- Modelled from the spec: the error-translation primitive `get_error(res)` (virtual):
the plain transport passes the OS error code through, the TLS transport asks the
TLS library for the code of the failed call. -/
def socket_base.get_error (n : net) (w : world) (self : connection) (res : Int) : Int × world :=
  let w1 :=
    match self.variant with
    | .plain => w.call .os_errno
    | .tls => w.call (.ssl_get_error self.ssl res)
  (n.error_code w1.log, w1)

/-- Modelled from the spec: `send(bytes)`: "requires phase = Connected; fails with
NotConnected otherwise.  Delegates to the transport-specific raw write primitive; on
a write error maps the OS/TLS error code via the variant's error-translation
primitive and fails with SendError; otherwise reports success".  One write per call,
no loop over a short write. -/
def socket_base.send_data (n : net) (w : world) (self : connection) (data : List UInt8)
    (err : Int) : send_result :=
  if socket_base.is_connected self then
    let sent := socket_base.send_data_internal n w self data
    if sent.1 < 0 then
      let code := socket_base.get_error n sent.2 self sent.1
      ⟨.SEND_ERR, code.1, self, code.2⟩
    else ⟨.SEND_SUCCESS, err, self, sent.2⟩
  else ⟨.SEND_NOT_CONNECTED, err, self, w⟩

/-- Modelled from the spec: `send_string` is `send` for a `std::string` payload, which is
represented by its bytes. -/
def socket_base.send_string (n : net) (w : world) (self : connection) (data : List UInt8)
    (err : Int) : send_result :=
  socket_base.send_data n w self data err

/-- Modelled from the spec: `receive(buffer, timeout_ms, chunk_size)`: "requires phase =
Connected; fails with NotConnected otherwise.  Waits up to timeout_ms for readability
using a readiness-poll primitive; fails with Timeout if no data arrives in time,
SelectError if the readiness check itself fails.  On readability, reads up to
chunk_size bytes via the raw read primitive.  A read returning zero bytes indicates
peer closed the connection: fails with Closed.  A read error maps through the
variant's error-translation primitive and fails with ReceiveError.  On success
returns the bytes read."  The default arguments are those of the declaration
(line 70). -/
def socket_base.receive_data (n : net) (w : world) (self : connection) (buff : List UInt8)
    (err : Int) (timeout_ms : Int := 3000) (chunk_size : Int := 4096) : receive_result :=
  if socket_base.is_connected self then
    let w1 := w.call (.poll self.base.socket_fd timeout_ms)
    match n.poll w1.log with
    | .timed_out => ⟨.RECEIVE_TIMEOUT, buff, err, self, w1⟩
    | .failed => ⟨.RECEIVE_SELECT_ERR, buff, err, self, w1⟩
    | .readable =>
      let got := socket_base.receive_data_internal n w1 self chunk_size.toNat
      if got.1 = 0 then ⟨.RECEIVE_CLOSED, buff, err, self, got.2.2⟩
      else if got.1 < 0 then
        let code := socket_base.get_error n got.2.2 self got.1
        ⟨.RECEIVE_ERROR, buff, code.1, self, code.2⟩
      else ⟨.RECEIVE_SUCCESS, got.2.1, err, self, got.2.2⟩
  else ⟨.RECEIVE_NOT_CONNECTED, buff, err, self, w⟩

/-- Modelled from the spec: `receive_string` is `receive` into a `std::string` buffer,
which is represented by its bytes.  The default arguments are those of the
declaration (line 71). -/
def socket_base.receive_string (n : net) (w : world) (self : connection) (buff : List UInt8)
    (err : Int) (timeout_ms : Int := 3000) (chunk_size : Int := 4096) : receive_result :=
  socket_base.receive_data n w self buff err timeout_ms chunk_size

/-- Modelled from the spec: the OS-level allocation of `create()`: open a stream socket;
on success the instance owns the descriptor and moves Uninitialized → Created, on OS
resource exhaustion the call fails and the instance is unchanged.  The enumeration
of the header has `CREATE_FAIL` for this failure. -/
def open_stream_socket (n : net) (w : world) (self : connection) : create_result :=
  let w1 := w.call .os_socket
  match n.os_socket w1.log with
  | none => ⟨.CREATE_FAIL, self, w1⟩
  | some fd =>
    ⟨.CREATE_SUCCESS,
      { self with base := { self.base with socket_fd := (fd : Int) }, phase := .Created }, w1⟩

/-- Modelled from the spec: `http_socket::create()` (section 4.3): "always succeeds
except on OS resource exhaustion".  Outside phase Uninitialized the spec gives the
call no behaviour (`none`). -/
def http_socket.create (n : net) (w : world) (self : connection) : Option create_result :=
  if self.phase = .Uninitialized then some (open_stream_socket n w self) else none

/-- Modelled from the spec: acquisition of the Shared TLS Context (section 4.4):
"acquires (creating if absent) the Shared TLS Context under its lock".  Returns
whether a context is available afterwards. -/
def https_socket.acquire_ssl_ctx (n : net) (w : world) : Bool × world :=
  let w1 := w.call .lock_ssl_ctx
  match w1.ssl_ctx with
  | some _ => (true, w1.call .unlock_ssl_ctx)
  | none =>
    let w2 := w1.call .ssl_ctx_new
    match n.ssl_ctx_new w2.log with
    | none => (false, w2.call .unlock_ssl_ctx)
    | some ctx => (true, { (w2.call .unlock_ssl_ctx) with ssl_ctx := some ctx })

/-- Modelled from the spec: `https_socket::create()` (section 4.4): acquire the Shared
TLS Context, failing with `CREATE_SSL_CTX_FAIL` "if context initialization fails",
then allocate the descriptor as the plain transport does. -/
def https_socket.create (n : net) (w : world) (self : connection) : Option create_result :=
  if self.phase = .Uninitialized then
    let got := https_socket.acquire_ssl_ctx n w
    if got.1 then some (open_stream_socket n got.2 self)
    else some ⟨.CREATE_SSL_CTX_FAIL, self, got.2⟩
  else none

/-- The virtual call `create()`: dispatched on the dynamic type. -/
def socket_base.create (n : net) (w : world) (self : connection) : Option create_result :=
  match self.variant with
  | .plain => http_socket.create n w self
  | .tls => https_socket.create n w self

/-- Modelled from the spec: `socket_base::dns_lookup(host)` (section 4.1): resolve the
hostname; the result is stored in the connection state and its success returned. -/
def socket_base.dns_lookup (n : net) (w : world) (self : connection) (host : String) :
    Bool × connection × world :=
  let w1 := w.call (.resolve host)
  let d := n.resolve w1.log
  (d.success, { self with base := { self.base with host := d } }, w1)

/-- Modelled from the spec: steps (a) and (b) of `connect()` (section 4.2): "(a) DNS
resolution — fails with BadAddress if the resolved address is malformed,
DnsLookupFailed if resolution fails; (b) OS-level connect to resolved address —
fails with ConnectFailed".  The phase is not changed here. -/
def socket_base.connect_transport (n : net) (w : world) (self : connection) : connect_result :=
  let looked := socket_base.dns_lookup n w self self.base.hostname
  let s1 := looked.2.1
  if looked.1 then
    let w2 := looked.2.2.call (.parse_address s1.base.host.host)
    if n.address_ok w2.log then
      let w3 := w2.call (.os_connect s1.base.socket_fd s1.base.host.host s1.base.port)
      if n.os_connect w3.log then ⟨.CONNECT_SUCCESS, s1, w3⟩ else ⟨.CONNECT_FAIL, s1, w3⟩
    else ⟨.CONNECT_BAD_IP, s1, w2⟩
  else ⟨.CONNECT_DNS_LOOKUP_FAIL, s1, looked.2.2⟩

/-- Modelled from the spec: `socket_base::connect()` (section 4.2): "requires phase =
Created"; steps (a) and (b); "On full success moves Created → Connected.  Any
failure leaves phase at Created".  Outside phase Created the spec gives the call no
behaviour (`none`). -/
def socket_base.connect (n : net) (w : world) (self : connection) : Option connect_result :=
  if self.phase = .Created then
    let r := socket_base.connect_transport n w self
    if r.response = .CONNECT_SUCCESS then
      some { r with self := { r.self with phase := .Connected } }
    else some r
  else none

/-- Modelled from the spec: step (c) of `connect()`, TLS variant only (sections 4.2 and
4.4): the session is created from the Shared TLS Context and bound to the connected
descriptor, then the handshake runs; the failures are those the enumeration of the
header names. -/
def https_socket.tls_attach (n : net) (w : world) (self : connection) : connect_result :=
  match w.ssl_ctx with
  | none => ⟨.CONNECT_SSL_CTX_NOT_INITIALIZED, self, w⟩
  | some ctx =>
    let w1 := w.call (.ssl_new ctx)
    match n.ssl_new w1.log with
    | none => ⟨.CONNECT_SSL_CREATE_FAIL, self, w1⟩
    | some session =>
      let s1 := { self with ssl := some session }
      let w2 := w1.call (.ssl_set_fd session s1.base.socket_fd)
      if n.ssl_set_fd w2.log then
        let w3 := w2.call (.ssl_handshake session)
        if n.ssl_handshake w3.log then
          ⟨.CONNECT_SUCCESS, { s1 with phase := .Connected }, w3⟩
        else ⟨.CONNECT_SSL_HANDSHAKE_FAIL, s1, w3⟩
      else ⟨.CONNECT_SSL_SET_FD_FAIL, s1, w2⟩

/-- Modelled from the spec: `https_socket::connect()` (section 4.4): "additionally
performs TLS session creation bound to the now-connected socket descriptor, then
handshake". -/
def https_socket.connect (n : net) (w : world) (self : connection) : Option connect_result :=
  if self.phase = .Created then
    let r := socket_base.connect_transport n w self
    if r.response = .CONNECT_SUCCESS then some (https_socket.tls_attach n r.w r.self)
    else some r
  else none

/-- Modelled from the spec: `socket_base::close()` (section 4.2): "valid from any
non-terminal phase; releases the socket descriptor ...; idempotent (calling twice is
safe, second call is a no-op); moves phase to Closed".  The spec names no failure
of the release, so the result (success of release) is `true`. -/
def socket_base.close (w : world) (self : connection) : close_result :=
  if self.phase = .Closed then ⟨true, self, w⟩
  else
    let w1 := if valid_fd self.base.socket_fd then w.call (.os_close self.base.socket_fd) else w
    ⟨true, { self with base := { self.base with socket_fd := -1 }, phase := .Closed }, w1⟩

/-- Modelled from the spec: `https_socket::close()` (section 4.4): "performs an orderly
TLS shutdown before releasing the socket descriptor; the Shared TLS Context is not
destroyed here".  The per-connection session is destroyed with the connection. -/
def https_socket.close (w : world) (self : connection) : close_result :=
  if self.phase = .Closed then ⟨true, self, w⟩
  else
    match self.ssl with
    | none => socket_base.close w self
    | some session =>
      socket_base.close ((w.call (.ssl_shutdown session)).call (.ssl_free session))
        { self with ssl := none }

/-- Number of descriptor releases among the calls made after world `w` up to `w1`. -/
def releases_since (w w1 : world) : Nat :=
  (w1.log.drop w.log.length).countP
    (fun c => match c with
      | .os_close _ => true
      | _ => false)

/-! ## Histories of calls on one connection instance -/

/-- A call of a public operation on a connection instance.  `connect` and `close` are
the members of `socket_base`; `tls_connect` and `tls_close` are the members of the
same name that `https_socket` declares, callable on a TLS connection only. -/
inductive call where
  | create
  | connect
  | tls_connect
  | send_data (data : List UInt8) (err : Int)
  | send_string (data : List UInt8) (err : Int)
  | receive_data (buff : List UInt8) (err : Int) (timeout_ms : Int) (chunk_size : Int)
  | receive_string (buff : List UInt8) (err : Int) (timeout_ms : Int) (chunk_size : Int)
  | close
  | tls_close
  deriving DecidableEq, Repr

/-- What a call leaves behind: the connection, the world, and whether the call was a
`connect()` that returned `CONNECT_SUCCESS`. -/
structure outcome where
  self : connection
  w : world
  connected : Bool
  deriving DecidableEq, Repr

/-- One call on a connection instance; `none` where the spec gives the call no
behaviour (precondition on the phase violated), or where the class of the connection
declares no member of its own for `tls_connect` / `tls_close` (plain connection). -/
def perform (n : net) (w : world) (self : connection) : call → Option outcome
  | .create =>
    (socket_base.create n w self).map (fun r => ⟨r.self, r.w, false⟩)
  | .connect =>
    (socket_base.connect n w self).map
      (fun r => ⟨r.self, r.w, decide (r.response = .CONNECT_SUCCESS)⟩)
  | .tls_connect =>
    if runs_own self.variant.cls .connect then
      (https_socket.connect n w self).map
        (fun r => ⟨r.self, r.w, decide (r.response = .CONNECT_SUCCESS)⟩)
    else none
  | .send_data data err =>
    let r := socket_base.send_data n w self data err
    some ⟨r.self, r.w, false⟩
  | .send_string data err =>
    let r := socket_base.send_string n w self data err
    some ⟨r.self, r.w, false⟩
  | .receive_data buff err timeout_ms chunk_size =>
    let r := socket_base.receive_data n w self buff err timeout_ms chunk_size
    some ⟨r.self, r.w, false⟩
  | .receive_string buff err timeout_ms chunk_size =>
    let r := socket_base.receive_string n w self buff err timeout_ms chunk_size
    some ⟨r.self, r.w, false⟩
  | .close =>
    let r := socket_base.close w self
    some ⟨r.self, r.w, false⟩
  | .tls_close =>
    if runs_own self.variant.cls .close then
      let r := https_socket.close w self
      some ⟨r.self, r.w, false⟩
    else none

/-- The connection states that a history of calls can reach from construction.  The
world each call starts from is arbitrary: other connections may have run in between. -/
inductive reachable (n : net) : connection → Prop where
  | construct (v : transport) (hostname : String) (port : Int) :
      reachable n (socket_base.socket_base v hostname port)
  | step (s : connection) (w : world) (c : call) (o : outcome) :
      reachable n s → perform n w s c = some o → reachable n o.self

/-- The connection states reached from construction by a history in which no
`connect()` has succeeded. -/
inductive never_connected (n : net) : connection → Prop where
  | construct (v : transport) (hostname : String) (port : Int) :
      never_connected n (socket_base.socket_base v hostname port)
  | step (s : connection) (w : world) (c : call) (o : outcome) :
      never_connected n s → perform n w s c = some o → o.connected = false →
      never_connected n o.self

/-- The descriptor invariant of section 3: the descriptor is valid exactly in the phases
Created and Connected. -/
def descriptor_invariant (s : connection) : Prop :=
  valid_fd s.base.socket_fd = true ↔ (s.phase = .Created ∨ s.phase = .Connected)

/-- The descriptor invariant can be evaluated on a state. -/
instance descriptor_invariant_decidable (s : connection) :
    Decidable (descriptor_invariant s) :=
  inferInstanceAs
    (Decidable (valid_fd s.base.socket_fd = true ↔ (s.phase = .Created ∨ s.phase = .Connected)))

/-- A world without history and without a Shared TLS Context. -/
def empty_world : world := { log := [], ssl_ctx := none }

/-- A collaborator that fails every call. -/
def failing_net : net :=
  { resolve := fun _ => dns_host.dns_host
    address_ok := fun _ => false
    os_socket := fun _ => none
    os_connect := fun _ => false
    poll := fun _ => .failed
    raw_read := fun _ => none
    raw_write := fun _ => none
    error_code := fun _ => -1
    ssl_ctx_new := fun _ => none
    ssl_new := fun _ => none
    ssl_set_fd := fun _ => false
    ssl_handshake := fun _ => false }

/-- A collaborator that serves every call: descriptor 3, context 1, session 2, the
address `93.184.216.34`, and the three bytes `104 105 10` on every read. -/
def serving_net : net :=
  { resolve := fun _ => { host := "93.184.216.34", success := true, err := 0 }
    address_ok := fun _ => true
    os_socket := fun _ => some 3
    os_connect := fun _ => true
    poll := fun _ => .readable
    raw_read := fun _ => some [104, 105, 10]
    raw_write := fun l =>
      match l.getLast? with
      | some (.os_send _ data) => some data.length
      | some (.ssl_write _ data) => some data.length
      | _ => some 0
    error_code := fun _ => 0
    ssl_ctx_new := fun _ => some 1
    ssl_new := fun _ => some 2
    ssl_set_fd := fun _ => true
    ssl_handshake := fun _ => true }

/-- Whether a call goes to the TLS library. -/
def net_call.is_tls : net_call → Bool
  | .ssl_ctx_new => true
  | .ssl_new _ => true
  | .ssl_set_fd _ _ => true
  | .ssl_handshake _ => true
  | .ssl_read _ _ => true
  | .ssl_write _ _ => true
  | .ssl_get_error _ _ => true
  | .ssl_shutdown _ => true
  | .ssl_free _ => true
  | _ => false

/-- A collaborator that opens sockets (descriptor 3) and fails every other call, every
lookup among them. -/
def unresolvable_net : net :=
  { failing_net with os_socket := fun _ => some 3 }

/-- A plain connection after `create()` and a `connect()` that failed in the lookup. -/
def created_example : connection :=
  { variant := .plain
    base := { host := dns_host.dns_host, hostname := "no-such-host.invalid", port := 80,
              socket_fd := 3 }
    ssl := none
    phase := .Created }

/-- A TLS connection after `create()` and a successful `https_socket::connect()`. -/
def connected_example : connection :=
  { variant := .tls
    base := { host := { host := "93.184.216.34", success := true, err := 0 },
              hostname := "example.org", port := 443, socket_fd := 3 }
    ssl := some 2
    phase := .Connected }

/-! ## The lifecycle modelled from the specification: supporting lemmas -/

/-- Sending leaves the connection state as it was. -/
theorem send_data_self (n : net) (w : world) (s : connection) (data : List UInt8) (err : Int) :
    (socket_base.send_data n w s data err).self = s := by
  unfold socket_base.send_data
  dsimp only
  repeat' (first | rfl | split)

/-- Receiving leaves the connection state as it was. -/
theorem receive_data_self (n : net) (w : world) (s : connection) (buff : List UInt8)
    (err timeout_ms chunk_size : Int) :
    (socket_base.receive_data n w s buff err timeout_ms chunk_size).self = s := by
  unfold socket_base.receive_data
  dsimp only
  repeat' (first | rfl | split)

/-- After `socket_base::close()` the phase is Closed and no descriptor is held. -/
theorem close_closed (w : world) (s : connection) (hs : descriptor_invariant s) :
    (socket_base.close w s).self.phase = .Closed
      ∧ valid_fd (socket_base.close w s).self.base.socket_fd = false := by
  unfold socket_base.close
  split
  · rename_i h
    refine ⟨h, ?_⟩
    cases hv : valid_fd s.base.socket_fd
    · rfl
    · have := hs.mp hv
      rw [h] at this
      simp at this
  · exact ⟨rfl, by simp [valid_fd]⟩

/-- After `https_socket::close()` the phase is Closed and no descriptor is held. -/
theorem tls_close_closed (w : world) (s : connection) (hs : descriptor_invariant s) :
    (https_socket.close w s).self.phase = .Closed
      ∧ valid_fd (https_socket.close w s).self.base.socket_fd = false := by
  unfold https_socket.close
  split
  · rename_i h
    refine ⟨h, ?_⟩
    cases hv : valid_fd s.base.socket_fd
    · rfl
    · have := hs.mp hv
      rw [h] at this
      simp at this
  · split
    · exact close_closed w s hs
    · exact close_closed _ _ hs

/-- The descriptor allocation of `create()` either fails and leaves the state as it
was, or yields phase Created with a valid descriptor. -/
theorem open_stream_socket_cases (n : net) (w : world) (s : connection) :
    (open_stream_socket n w s).self = s
      ∨ ((open_stream_socket n w s).self.phase = .Created
          ∧ valid_fd (open_stream_socket n w s).self.base.socket_fd = true) := by
  unfold open_stream_socket
  dsimp only
  split
  · exact Or.inl rfl
  · exact Or.inr ⟨rfl, by simp [valid_fd]⟩

/-- The virtual `create()` either leaves the state as it was, or yields phase Created
with a valid descriptor. -/
theorem create_cases (n : net) (w : world) (s : connection) (r : create_result)
    (h : socket_base.create n w s = some r) :
    r.self = s ∨ (r.self.phase = .Created ∧ valid_fd r.self.base.socket_fd = true) := by
  unfold socket_base.create http_socket.create https_socket.create at h
  split at h
  · split at h
    · cases h; exact open_stream_socket_cases n w s
    · cases h
  · split at h
    · dsimp only at h
      split at h
      · cases h; exact open_stream_socket_cases n _ s
      · cases h; exact Or.inl rfl
    · cases h

/-- Steps (a) and (b) of `connect()` keep the phase and the descriptor. -/
theorem connect_transport_frame (n : net) (w : world) (s : connection) :
    (socket_base.connect_transport n w s).self.phase = s.phase
      ∧ (socket_base.connect_transport n w s).self.base.socket_fd = s.base.socket_fd := by
  unfold socket_base.connect_transport socket_base.dns_lookup
  dsimp only
  repeat' (first | exact ⟨rfl, rfl⟩ | split)

/-- Step (c) of the TLS `connect()` keeps the descriptor; it yields phase Connected
exactly when it returns `CONNECT_SUCCESS`, and keeps the phase otherwise. -/
theorem tls_attach_frame (n : net) (w : world) (s : connection) :
    (https_socket.tls_attach n w s).self.base.socket_fd = s.base.socket_fd
      ∧ (((https_socket.tls_attach n w s).response = .CONNECT_SUCCESS
            ∧ (https_socket.tls_attach n w s).self.phase = .Connected)
          ∨ ((https_socket.tls_attach n w s).response ≠ .CONNECT_SUCCESS
            ∧ (https_socket.tls_attach n w s).self.phase = s.phase)) := by
  unfold https_socket.tls_attach
  split
  · exact ⟨rfl, Or.inr ⟨by simp, rfl⟩⟩
  · dsimp only
    split
    · exact ⟨rfl, Or.inr ⟨by simp, rfl⟩⟩
    · split
      · split
        · exact ⟨rfl, Or.inl ⟨rfl, rfl⟩⟩
        · exact ⟨rfl, Or.inr ⟨by simp, rfl⟩⟩
      · exact ⟨rfl, Or.inr ⟨by simp, rfl⟩⟩

/-- The call `socket_base::connect()` starts in phase Created, keeps the descriptor, and yields
phase Connected exactly when it returns `CONNECT_SUCCESS`; otherwise the phase stays
Created. -/
theorem connect_cases (n : net) (w : world) (s : connection) (r : connect_result)
    (h : socket_base.connect n w s = some r) :
    s.phase = .Created ∧ r.self.base.socket_fd = s.base.socket_fd
      ∧ ((r.response = .CONNECT_SUCCESS ∧ r.self.phase = .Connected)
          ∨ (r.response ≠ .CONNECT_SUCCESS ∧ r.self.phase = .Created)) := by
  unfold socket_base.connect at h
  split at h
  · rename_i hp
    have hf := connect_transport_frame n w s
    dsimp only at h
    split at h
    · rename_i hr
      cases h
      exact ⟨hp, hf.2, Or.inl ⟨hr, rfl⟩⟩
    · rename_i hr
      cases h
      exact ⟨hp, hf.2, Or.inr ⟨hr, hf.1.trans hp⟩⟩
  · cases h

/-- The call `https_socket::connect()` starts in phase Created, keeps the descriptor, and yields
phase Connected exactly when it returns `CONNECT_SUCCESS`; otherwise the phase stays
Created. -/
theorem tls_connect_cases (n : net) (w : world) (s : connection) (r : connect_result)
    (h : https_socket.connect n w s = some r) :
    s.phase = .Created ∧ r.self.base.socket_fd = s.base.socket_fd
      ∧ ((r.response = .CONNECT_SUCCESS ∧ r.self.phase = .Connected)
          ∨ (r.response ≠ .CONNECT_SUCCESS ∧ r.self.phase = .Created)) := by
  unfold https_socket.connect at h
  split at h
  · rename_i hp
    have hf := connect_transport_frame n w s
    dsimp only at h
    split at h
    · cases h
      have ha := tls_attach_frame n (socket_base.connect_transport n w s).w
        (socket_base.connect_transport n w s).self
      refine ⟨hp, ha.1.trans hf.2, ?_⟩
      rcases ha.2 with ⟨h1, h2⟩ | ⟨h1, h2⟩
      · exact Or.inl ⟨h1, h2⟩
      · exact Or.inr ⟨h1, h2.trans (hf.1.trans hp)⟩
    · rename_i hr
      cases h
      exact ⟨hp, hf.2, Or.inr ⟨hr, hf.1.trans hp⟩⟩
  · cases h

/-- What one call does to the phase and the descriptor: it leaves the state as it was,
or allocates a descriptor (Created), or connects (from Created, descriptor kept, and
only when a `connect()` returned `CONNECT_SUCCESS`), or keeps phase Created and the
descriptor (failed `connect()`), or closes. -/
theorem perform_cases (n : net) (w : world) (s : connection) (c : call) (o : outcome)
    (hs : descriptor_invariant s) (h : perform n w s c = some o) :
    (o.self.phase = s.phase ∧ o.self.base.socket_fd = s.base.socket_fd)
      ∨ (o.self.phase = .Created ∧ valid_fd o.self.base.socket_fd = true)
      ∨ (o.self.phase = .Connected ∧ s.phase = .Created
          ∧ o.self.base.socket_fd = s.base.socket_fd ∧ o.connected = true)
      ∨ (o.self.phase = .Closed ∧ valid_fd o.self.base.socket_fd = false) := by
  cases c with
  | create =>
    simp only [perform, Option.map_eq_some'] at h
    obtain ⟨r, hr, rfl⟩ := h
    rcases create_cases n w s r hr with h1 | h1
    · exact Or.inl ⟨by rw [h1], by rw [h1]⟩
    · exact Or.inr (Or.inl h1)
  | connect =>
    simp only [perform, Option.map_eq_some'] at h
    obtain ⟨r, hr, rfl⟩ := h
    obtain ⟨hp, hfd, hc⟩ := connect_cases n w s r hr
    rcases hc with ⟨h1, h2⟩ | ⟨_, h2⟩
    · exact Or.inr (Or.inr (Or.inl ⟨h2, hp, hfd, by simp [h1]⟩))
    · exact Or.inl ⟨h2.trans hp.symm, hfd⟩
  | tls_connect =>
    simp only [perform] at h
    split at h
    · simp only [Option.map_eq_some'] at h
      obtain ⟨r, hr, rfl⟩ := h
      obtain ⟨hp, hfd, hc⟩ := tls_connect_cases n w s r hr
      rcases hc with ⟨h1, h2⟩ | ⟨_, h2⟩
      · exact Or.inr (Or.inr (Or.inl ⟨h2, hp, hfd, by simp [h1]⟩))
      · exact Or.inl ⟨h2.trans hp.symm, hfd⟩
    · cases h
  | send_data data err =>
    simp only [perform, Option.some.injEq] at h
    subst h
    exact Or.inl ⟨by rw [send_data_self], by rw [send_data_self]⟩
  | send_string data err =>
    simp only [perform, socket_base.send_string, Option.some.injEq] at h
    subst h
    exact Or.inl ⟨by rw [send_data_self], by rw [send_data_self]⟩
  | receive_data buff err timeout_ms chunk_size =>
    simp only [perform, Option.some.injEq] at h
    subst h
    exact Or.inl ⟨by rw [receive_data_self], by rw [receive_data_self]⟩
  | receive_string buff err timeout_ms chunk_size =>
    simp only [perform, socket_base.receive_string, Option.some.injEq] at h
    subst h
    exact Or.inl ⟨by rw [receive_data_self], by rw [receive_data_self]⟩
  | close =>
    simp only [perform, Option.some.injEq] at h
    subst h
    exact Or.inr (Or.inr (Or.inr (close_closed w s hs)))
  | tls_close =>
    simp only [perform] at h
    split at h
    · simp only [Option.some.injEq] at h
      subst h
      exact Or.inr (Or.inr (Or.inr (tls_close_closed w s hs)))
    · cases h

/-- One call preserves the descriptor invariant. -/
theorem perform_invariant (n : net) (w : world) (s : connection) (c : call) (o : outcome)
    (hs : descriptor_invariant s) (h : perform n w s c = some o) :
    descriptor_invariant o.self := by
  unfold descriptor_invariant at hs ⊢
  rcases perform_cases n w s c o hs h with ⟨h1, h2⟩ | ⟨h1, h2⟩ | ⟨h1, h2, h3, _⟩ | ⟨h1, h2⟩
  · rw [h1, h2]; exact hs
  · simp [h1, h2]
  · rw [h1, h3]
    have := hs.mpr (Or.inl h2)
    simp [this]
  · simp [h1, h2]

/-- The descriptor invariant holds in every reachable state. -/
theorem reachable_invariant (n : net) (s : connection) (h : reachable n s) :
    descriptor_invariant s := by
  induction h with
  | construct v hostname port =>
    simp [descriptor_invariant, socket_base.socket_base, valid_fd]
  | step s w c o _ hp ih => exact perform_invariant n w s c o ih hp

/-- A history without a successful `connect()` is a history. -/
theorem never_connected_reachable (n : net) (s : connection) (h : never_connected n s) :
    reachable n s := by
  induction h with
  | construct v hostname port => exact reachable.construct v hostname port
  | step s w c o _ hp _ ih => exact reachable.step s w c o ih hp

/-- While no `connect()` has succeeded the connection is not in phase Connected. -/
theorem never_connected_phase (n : net) (s : connection) (h : never_connected n s) :
    socket_base.is_connected s = false := by
  induction h with
  | construct v hostname port => rfl
  | step s w c o hn hp hc ih =>
    have hs := reachable_invariant n s (never_connected_reachable n s hn)
    have ih1 : s.phase ≠ .Connected := by
      simpa [socket_base.is_connected] using ih
    simp only [socket_base.is_connected, decide_eq_false_iff_not]
    rcases perform_cases n w s c o hs hp with ⟨h1, _⟩ | ⟨h1, _⟩ | ⟨_, _, _, h4⟩ | ⟨h1, _⟩
    · rw [h1]; exact ih1
    · rw [h1]; decide
    · rw [hc] at h4; cases h4
    · rw [h1]; decide

/-- A connection that is not connected is refused by `send_data` before any call to a
collaborator. -/
theorem send_data_refused (n : net) (w : world) (s : connection) (data : List UInt8)
    (err : Int) (h : socket_base.is_connected s = false) :
    socket_base.send_data n w s data err = ⟨.SEND_NOT_CONNECTED, err, s, w⟩ := by
  unfold socket_base.send_data
  rw [h]
  rfl

/-- A connection that is not connected is refused by `receive_data` before any call to
a collaborator. -/
theorem receive_data_refused (n : net) (w : world) (s : connection) (buff : List UInt8)
    (err timeout_ms chunk_size : Int) (h : socket_base.is_connected s = false) :
    socket_base.receive_data n w s buff err timeout_ms chunk_size
      = ⟨.RECEIVE_NOT_CONNECTED, buff, err, s, w⟩ := by
  unfold socket_base.receive_data
  rw [h]
  rfl

/-- The call `socket_base::close()` always ends in phase Closed. -/
theorem close_phase (w : world) (s : connection) :
    (socket_base.close w s).self.phase = .Closed := by
  unfold socket_base.close
  split
  · assumption
  · rfl

/-- The call `https_socket::close()` always ends in phase Closed. -/
theorem tls_close_phase (w : world) (s : connection) :
    (https_socket.close w s).self.phase = .Closed := by
  unfold https_socket.close
  split
  · assumption
  · split <;> exact close_phase _ _

/-- On a closed connection `socket_base::close()` does nothing. -/
theorem close_of_closed (w : world) (s : connection) (h : s.phase = .Closed) :
    socket_base.close w s = ⟨true, s, w⟩ := by
  unfold socket_base.close
  rw [if_pos h]

/-- On a closed connection `https_socket::close()` does nothing. -/
theorem tls_close_of_closed (w : world) (s : connection) (h : s.phase = .Closed) :
    https_socket.close w s = ⟨true, s, w⟩ := by
  unfold https_socket.close
  rw [if_pos h]

/-- One `socket_base::close()` releases the descriptor at most once. -/
theorem close_releases (w : world) (s : connection) :
    releases_since w (socket_base.close w s).w ≤ 1 := by
  unfold socket_base.close
  split
  · simp [releases_since]
  · dsimp only
    split <;> simp [releases_since, world.call]

/-- One `https_socket::close()` releases the descriptor at most once. -/
theorem tls_close_releases (w : world) (s : connection) :
    releases_since w (https_socket.close w s).w ≤ 1 := by
  unfold https_socket.close socket_base.close
  repeat' split
  all_goals simp [releases_since, world.call]

/-- In the modelled lifecycle the members of `socket_base` that a TLS connection reaches
through the base interface do no TLS work: `socket_base::connect()` binds no session
and makes no call to the TLS library, and neither does `socket_base::close()`. -/
theorem base_connect_close_no_tls (n : net) (w : world) (s : connection) :
    (∀ r, socket_base.connect n w s = some r →
        r.self.ssl = s.ssl ∧ (r.w.log.drop w.log.length).any net_call.is_tls = false)
      ∧ (socket_base.close w s).self.ssl = s.ssl
      ∧ ((socket_base.close w s).w.log.drop w.log.length).any net_call.is_tls = false := by
  refine ⟨?_, ?_, ?_⟩
  · intro r h
    unfold socket_base.connect at h
    split at h
    · dsimp only at h
      split at h <;> cases h <;>
        · unfold socket_base.connect_transport socket_base.dns_lookup
          dsimp only
          repeat' split
          all_goals simp [world.call, net_call.is_tls]
    · cases h
  · unfold socket_base.close
    split <;> rfl
  · unfold socket_base.close
    split
    · simp
    · dsimp only
      split <;> simp [world.call, net_call.is_tls]

/-- The declared members do not determine the phase of the modelled lifecycle: a fresh
connection (Uninitialized) and the same connection after `close()` (Closed) agree on
every data member. -/
theorem members_do_not_determine_phase :
    (socket_base.close empty_world
        (socket_base.socket_base .plain "example.org" 80)).self.base
      = (socket_base.socket_base .plain "example.org" 80).base
    ∧ (socket_base.close empty_world
        (socket_base.socket_base .plain "example.org" 80)).self.ssl
      = (socket_base.socket_base .plain "example.org" 80).ssl
    ∧ (socket_base.close empty_world
        (socket_base.socket_base .plain "example.org" 80)).self.phase = .Closed
    ∧ (socket_base.socket_base .plain "example.org" 80).phase = .Uninitialized :=
  ⟨rfl, rfl, rfl, rfl⟩

/-! ## Concrete histories -/

/-- The history construct, `create()`, failed `connect()` reaches `created_example`
without a successful `connect()`. -/
theorem created_example_never_connected :
    never_connected unresolvable_net created_example :=
  never_connected.step
    created_example
    { log := [.os_socket], ssl_ctx := none } .connect
    ⟨created_example,
      { log := [.os_socket, .resolve "no-such-host.invalid"], ssl_ctx := none }, false⟩
    (never_connected.step
      (socket_base.socket_base .plain "no-such-host.invalid" 80) empty_world .create
      ⟨created_example, { log := [.os_socket], ssl_ctx := none }, false⟩
      (never_connected.construct .plain "no-such-host.invalid" 80) rfl rfl)
    rfl rfl

/-- The history construct, `create()`, `https_socket::connect()` reaches
`connected_example`. -/
theorem connected_example_reachable : reachable serving_net connected_example :=
  reachable.step
    { variant := .tls
      base := { host := dns_host.dns_host, hostname := "example.org", port := 443,
                socket_fd := 3 }
      ssl := none
      phase := .Created }
    { log := [.lock_ssl_ctx, .ssl_ctx_new, .unlock_ssl_ctx, .os_socket], ssl_ctx := some 1 }
    .tls_connect
    ⟨connected_example,
      { log := [.lock_ssl_ctx, .ssl_ctx_new, .unlock_ssl_ctx, .os_socket,
                .resolve "example.org", .parse_address "93.184.216.34",
                .os_connect 3 "93.184.216.34" 443, .ssl_new 1, .ssl_set_fd 2 3,
                .ssl_handshake 2],
        ssl_ctx := some 1 }, true⟩
    (reachable.step
      (socket_base.socket_base .tls "example.org" 443) empty_world .create
      ⟨{ variant := .tls
         base := { host := dns_host.dns_host, hostname := "example.org", port := 443,
                   socket_fd := 3 }
         ssl := none
         phase := .Created },
        { log := [.lock_ssl_ctx, .ssl_ctx_new, .unlock_ssl_ctx, .os_socket],
          ssl_ctx := some 1 }, false⟩
      (reachable.construct .tls "example.org" 443) rfl)
    rfl

/-! ## Theorems about the declarations of the header -/

/-- C3: every fallible operation returns a closed result type with exactly the listed,
pairwise distinct outcomes: `create_response` has exactly the 3 values
{SslContextFailed, CreateFailed, Success}, `connect_response` exactly the 8 values
{BadAddress, ConnectFailed, DnsLookupFailed, SslCreateFailed, SslBindFailed,
HandshakeFailed, SslContextNotInitialized, Success}, `send_response` exactly the 3
values {NotConnected, SendError, Success}, `receive_response` exactly the 6 values
{NotConnected, Closed, Timeout, SelectError, ReceiveError, Success}; the enumerators
of each type have pairwise distinct numeric values; and every declaration of
create / connect / send_data, send_string / receive_data, receive_string in the three
classes returns the corresponding type. -/
theorem C3_result_types_closed :
    ((Finset.univ : Finset create_response)
        = {.CREATE_SSL_CTX_FAIL, .CREATE_FAIL, .CREATE_SUCCESS}
      ∧ Fintype.card create_response = 3
      ∧ Function.Injective create_response.value)
    ∧ ((Finset.univ : Finset connect_response)
        = {.CONNECT_BAD_IP, .CONNECT_FAIL, .CONNECT_DNS_LOOKUP_FAIL, .CONNECT_SSL_CREATE_FAIL,
           .CONNECT_SSL_SET_FD_FAIL, .CONNECT_SSL_HANDSHAKE_FAIL,
           .CONNECT_SSL_CTX_NOT_INITIALIZED, .CONNECT_SUCCESS}
      ∧ Fintype.card connect_response = 8
      ∧ Function.Injective connect_response.value)
    ∧ ((Finset.univ : Finset send_response) = {.SEND_NOT_CONNECTED, .SEND_ERR, .SEND_SUCCESS}
      ∧ Fintype.card send_response = 3
      ∧ Function.Injective send_response.value)
    ∧ ((Finset.univ : Finset receive_response)
        = {.RECEIVE_NOT_CONNECTED, .RECEIVE_CLOSED, .RECEIVE_TIMEOUT, .RECEIVE_SELECT_ERR,
           .RECEIVE_ERROR, .RECEIVE_SUCCESS}
      ∧ Fintype.card receive_response = 6
      ∧ Function.Injective receive_response.value)
    ∧ ([class_name.socket_base, .http_socket, .https_socket].map
          (fun c => (own_method c .create).map (fun d => d.ret))
        = [some .create_response_t, some .create_response_t, some .create_response_t]
      ∧ [class_name.socket_base, .http_socket, .https_socket].map
          (fun c => (own_method c .connect).map (fun d => d.ret))
        = [some .connect_response_t, none, some .connect_response_t]
      ∧ [member_name.send_data, .send_string].map
          (fun m => (own_method .socket_base m).map (fun d => d.ret))
        = [some .send_response_t, some .send_response_t]
      ∧ [member_name.receive_data, .receive_string].map
          (fun m => (own_method .socket_base m).map (fun d => d.ret))
        = [some .receive_response_t, some .receive_response_t]) := by
  refine ⟨⟨by decide, by decide, ?_⟩, ⟨by decide, by decide, ?_⟩, ⟨by decide, by decide, ?_⟩,
    ⟨by decide, by decide, ?_⟩, by decide⟩
  · intro a b h; cases a <;> cases b <;> first | rfl | exact absurd h (by decide)
  · intro a b h; cases a <;> cases b <;> first | rfl | exact absurd h (by decide)
  · intro a b h; cases a <;> cases b <;> first | rfl | exact absurd h (by decide)
  · intro a b h; cases a <;> cases b <;> first | rfl | exact absurd h (by decide)

/-- C6 (refuted as stated): the result type of `create()` has no outcome besides
`CREATE_SSL_CTX_FAIL` (SslContextFailed), `CREATE_FAIL` (CreateFailed) and
`CREATE_SUCCESS`: there is no further outcome CreateTransportFailed, distinct from
CreateFailed, for an OS-level allocation failure. -/
theorem C6_no_transport_failed_outcome :
    ¬ ∃ r : create_response,
        r ≠ .CREATE_SSL_CTX_FAIL ∧ r ≠ .CREATE_FAIL ∧ r ≠ .CREATE_SUCCESS := by
  decide

/-- C6 (amended): `create()` reports failure with exactly two outcomes,
`CREATE_SSL_CTX_FAIL` and `CREATE_FAIL`; `CREATE_FAIL` is the only failure outcome
that is not the TLS-context failure, so every other allocation failure, OS-level or
not, is reported with it. -/
theorem C6_create_failure_outcomes :
    (Finset.univ.filter (fun r : create_response => r ≠ .CREATE_SUCCESS))
        = {.CREATE_SSL_CTX_FAIL, .CREATE_FAIL}
    ∧ (Finset.univ.filter
        (fun r : create_response => r ≠ .CREATE_SUCCESS ∧ r ≠ .CREATE_SSL_CTX_FAIL))
        = {.CREATE_FAIL}
    ∧ (own_method .socket_base .create).map (fun d => d.ret) = some .create_response_t := by
  decide

/-- C7 (refuted as stated): the operations of the base protocol that `https_socket`
declares again are not just creation, raw read, raw write and error translation:
`connect` and `close` are among them, and a call of `connect()` or `close()` on an
`https_socket` runs the member of `https_socket`, not the one of `socket_base`. -/
theorem C7_https_redeclares_connect_close :
    ¬ (∀ m : member_name,
        m ∈ redeclared .https_socket ↔
          m ∈ [member_name.create, .receive_data_internal, .send_data_internal, .get_error])
    ∧ member_name.connect ∈ redeclared .https_socket
    ∧ member_name.close ∈ redeclared .https_socket
    ∧ resolve .https_socket .https_socket .connect = some .https_socket
    ∧ resolve .https_socket .https_socket .close = some .https_socket := by
  decide

/-- C7 (amended): the operations of the shared base protocol that the TLS variant
declares again are exactly connect, close, create, receive_data_internal,
send_data_internal and get_error; the plain variant declares again exactly create,
receive_data_internal, send_data_internal and get_error and uses the connect and close
of `socket_base`; send_data, send_string, receive_data and receive_string are the
single shared implementation of `socket_base` for every static and dynamic type. -/
theorem C7_shared_and_variant_operations :
    redeclared .https_socket
        = [.connect, .close, .create, .receive_data_internal, .send_data_internal, .get_error]
    ∧ redeclared .http_socket
        = [.create, .receive_data_internal, .send_data_internal, .get_error]
    ∧ resolve .http_socket .http_socket .connect = some .socket_base
    ∧ resolve .http_socket .http_socket .close = some .socket_base
    ∧ (∀ stat dyn : class_name,
        [member_name.send_data, .send_string, .receive_data, .receive_string].map
            (resolve stat dyn)
          = [some .socket_base, some .socket_base, some .socket_base, some .socket_base]) := by
  decide

/-- C9: `connect()` and `close()` are not virtual in `socket_base`, so on an
`https_socket` used through the `socket_base` interface they resolve to
`socket_base::connect` and `socket_base::close`, not to the members of the same name
of `https_socket` (which a call through the `https_socket` type reaches); `create()`,
`receive_data_internal`, `send_data_internal` and `get_error` are virtual and resolve
to the overrides of `https_socket`. -/
theorem C9_connect_close_statically_bound :
    (resolve .socket_base .https_socket .connect = some .socket_base
      ∧ resolve .socket_base .https_socket .close = some .socket_base)
    ∧ (is_virtual_in hierarchy_depth .socket_base .connect = false
      ∧ is_virtual_in hierarchy_depth .socket_base .close = false
      ∧ is_virtual_in hierarchy_depth .https_socket .connect = false
      ∧ is_virtual_in hierarchy_depth .https_socket .close = false)
    ∧ (own_method .https_socket .connect ≠ none ∧ own_method .https_socket .close ≠ none
      ∧ resolve .https_socket .https_socket .connect = some .https_socket
      ∧ resolve .https_socket .https_socket .close = some .https_socket)
    ∧ (resolve .socket_base .https_socket .create = some .https_socket
      ∧ resolve .socket_base .https_socket .receive_data_internal = some .https_socket
      ∧ resolve .socket_base .https_socket .send_data_internal = some .https_socket
      ∧ resolve .socket_base .https_socket .get_error = some .https_socket) := by
  decide

/-- C10: a default-constructed `dns_host` is a failed, unresolved lookup: `host` is the
empty string, `success` is false and `err` is -1. -/
theorem C10_dns_host_default :
    dns_host.dns_host.host = "" ∧ dns_host.dns_host.success = false
      ∧ dns_host.dns_host.err = -1 :=
  ⟨rfl, rfl, rfl⟩

/-- C4 (refuted as stated): the connection state declared by the header stores no
lifecycle phase.  The data members of `socket_base` are host, hostname, port and
socket_fd, `https_socket` adds ssl_ctx_mutex, ssl_ctx and ssl; none of them has an
enumeration type, no enumeration of the header has four enumerators, and the only
lifecycle query, `is_connected()`, returns `bool`. -/
theorem C4_no_stored_phase :
    stores_phase .socket_base = false ∧ stores_phase .http_socket = false
    ∧ stores_phase .https_socket = false
    ∧ (all_fields hierarchy_depth .https_socket).map (fun f => f.name)
        = [.host, .hostname, .port, .socket_fd, .ssl_ctx_mutex, .ssl_ctx, .ssl]
    ∧ (all_fields hierarchy_depth .https_socket).all (fun f => !f.type.is_enum) = true
    ∧ header_enums.all (fun e => decide (e.2 ≠ 4)) = true
    ∧ (own_method .socket_base .is_connected).map (fun d => d.ret) = some .bool_t := by
  decide

/-! ## Theorems about the lifecycle modelled from the specification -/

/-- C1: on every connection instance, plain or TLS, on which no `connect()` has
succeeded yet, and for every payload, `timeout_ms` and `chunk_size`, `send_data` and
`send_string` return `SEND_NOT_CONNECTED` and `receive_data` and `receive_string`
return `RECEIVE_NOT_CONNECTED`; the connection and the world are returned as they
were, so neither the raw read or write primitive nor the readiness poll is called. -/
theorem C1_send_receive_before_connect (n : net) (s : connection)
    (h : never_connected n s) (w : world) (data buff : List UInt8)
    (err timeout_ms chunk_size : Int) :
    socket_base.send_data n w s data err = ⟨.SEND_NOT_CONNECTED, err, s, w⟩
      ∧ socket_base.send_string n w s data err = ⟨.SEND_NOT_CONNECTED, err, s, w⟩
      ∧ socket_base.receive_data n w s buff err timeout_ms chunk_size
          = ⟨.RECEIVE_NOT_CONNECTED, buff, err, s, w⟩
      ∧ socket_base.receive_string n w s buff err timeout_ms chunk_size
          = ⟨.RECEIVE_NOT_CONNECTED, buff, err, s, w⟩ :=
  have hc := never_connected_phase n s h
  ⟨send_data_refused n w s data err hc, send_data_refused n w s data err hc,
    receive_data_refused n w s buff err timeout_ms chunk_size hc,
    receive_data_refused n w s buff err timeout_ms chunk_size hc⟩

/-- C2: `close()` is idempotent for both transports: from every connection state and
world, both of two calls in a row report success, the second call changes neither
the connection nor the world (the state after two calls is the state after one), and
the two calls together release the descriptor at most once.  Stated for
`socket_base::close()` (plain transport) and for `https_socket::close()`. -/
theorem C2_close_idempotent (w : world) (s : connection) :
    ((socket_base.close w s).ok = true
      ∧ socket_base.close (socket_base.close w s).w (socket_base.close w s).self
          = ⟨true, (socket_base.close w s).self, (socket_base.close w s).w⟩
      ∧ releases_since w
          (socket_base.close (socket_base.close w s).w (socket_base.close w s).self).w ≤ 1)
    ∧ ((https_socket.close w s).ok = true
      ∧ https_socket.close (https_socket.close w s).w (https_socket.close w s).self
          = ⟨true, (https_socket.close w s).self, (https_socket.close w s).w⟩
      ∧ releases_since w
          (https_socket.close (https_socket.close w s).w (https_socket.close w s).self).w
          ≤ 1) := by
  have e1 := close_of_closed (socket_base.close w s).w _ (close_phase w s)
  have e2 := tls_close_of_closed (https_socket.close w s).w _ (tls_close_phase w s)
  refine ⟨⟨?_, e1, ?_⟩, ⟨?_, e2, ?_⟩⟩
  · unfold socket_base.close
    split <;> rfl
  · rw [e1]
    exact close_releases w s
  · unfold https_socket.close socket_base.close
    repeat' (first | rfl | split)
  · rw [e2]
    exact tls_close_releases w s

/-- C4 (amended): the four-valued lifecycle phase {Uninitialized, Created, Connected,
Closed} is not a member of the connection state but a ghost component of the modelled
lifecycle; for it, in every state that a history of calls reaches from construction,
the socket descriptor is valid if and only if the phase is Created or Connected.  The
stored state is host, hostname, port, socket_fd, and for the TLS transport
ssl_ctx_mutex, ssl_ctx and ssl. -/
theorem C4_descriptor_valid_iff_ghost_phase (n : net) (s : connection)
    (h : reachable n s) :
    (valid_fd s.base.socket_fd = true ↔ (s.phase = .Created ∨ s.phase = .Connected))
      ∧ (Finset.univ : Finset lifecycle_phase)
          = {.Uninitialized, .Created, .Connected, .Closed}
      ∧ Fintype.card lifecycle_phase = 4
      ∧ (all_fields hierarchy_depth .https_socket).map (fun f => f.name)
          = [.host, .hostname, .port, .socket_fd, .ssl_ctx_mutex, .ssl_ctx, .ssl]
      ∧ stores_phase .https_socket = false :=
  ⟨reachable_invariant n s h, by decide, by decide, by decide, by decide⟩

/-- C5: a call of `receive_data` or `receive_string` without the timeout and chunk
arguments is the call with `timeout_ms = 3000` and `chunk_size = 4096`: these are the
default arguments of both declarations. -/
theorem C5_receive_default_arguments (n : net) (w : world) (s : connection)
    (buff : List UInt8) (err : Int) :
    socket_base.receive_data n w s buff err
        = socket_base.receive_data n w s buff err 3000 4096
      ∧ socket_base.receive_string n w s buff err
        = socket_base.receive_string n w s buff err 3000 4096
      ∧ (own_method .socket_base .receive_data).map (fun d => complete_args d [])
        = some [3000, 4096]
      ∧ (own_method .socket_base .receive_string).map (fun d => complete_args d [])
        = some [3000, 4096]
      ∧ [class_name.http_socket, .https_socket].map
          (fun c => (own_method c .receive_data, own_method c .receive_string))
        = [(none, none), (none, none)] :=
  ⟨rfl, rfl, by decide, by decide, by decide⟩

/-! ## The hypotheses of C1 and C4 at concrete inputs -/

/-- C1 at a concrete input: the plain connection `created_example`, created but with a
failed `connect()`, refuses to send the two bytes `104 105` and to receive with
`timeout_ms = 100`, `chunk_size = 16`, and makes no call. -/
theorem C1_send_receive_before_connect_witness :
    never_connected unresolvable_net created_example
      ∧ socket_base.send_data unresolvable_net empty_world created_example [104, 105] 0
          = ⟨.SEND_NOT_CONNECTED, 0, created_example, empty_world⟩
      ∧ socket_base.receive_data unresolvable_net empty_world created_example [] 0 100 16
          = ⟨.RECEIVE_NOT_CONNECTED, [], 0, created_example, empty_world⟩ :=
  ⟨created_example_never_connected,
    (C1_send_receive_before_connect unresolvable_net created_example
      created_example_never_connected empty_world [104, 105] [] 0 100 16).1,
    (C1_send_receive_before_connect unresolvable_net created_example
      created_example_never_connected empty_world [104, 105] [] 0 100 16).2.2.1⟩

/-- C4 (amended) at a concrete input: the TLS connection `connected_example` is
reachable, is in phase Connected and holds the valid descriptor 3. -/
theorem C4_descriptor_valid_iff_ghost_phase_witness :
    reachable serving_net connected_example
      ∧ (valid_fd connected_example.base.socket_fd = true
          ↔ (connected_example.phase = .Created ∨ connected_example.phase = .Connected))
      ∧ valid_fd connected_example.base.socket_fd = true :=
  ⟨connected_example_reachable,
    (C4_descriptor_valid_iff_ghost_phase serving_net connected_example
      connected_example_reachable).1,
    rfl⟩

end network
